import Mathlib

/-!
Verification of the MeloTTS-cloud event-triggered entry point (`src/main.py`).

The Python module is shallowly embedded as pure Lean functions.  External
effects (the Google Cloud Storage client, the TTS engine, the temporary file
and its removal) are represented by oracle fields of an `Env` record: each
oracle records how the corresponding external call would behave during one
invocation, and the embedded `melo_tts_gcs_trigger` computes, from those
oracles, the invocation's outcome (normal return versus raised exception) and
an effect trace (whether a storage read was attempted, whether an output
object was written, whether the temporary artifact was created and whether it
still exists afterwards, plus a log of the messages printed or warned).
-/

set_option autoImplicit false

namespace MeloTTS

/-- Kinds of Python exception relevant to `main.py` (`RuntimeError`,
`ValueError`, `KeyError`, `FileNotFoundError`, `PermissionError`, and a
catch-all for any other unexpected exception type). -/
inductive PyErr where
  | runtimeError
  | valueError
  | keyError
  | fileNotFound
  | permissionError
  | unexpected
deriving DecidableEq, Repr

/-- Oracle for one source-object read (`read_text_from_gcs`, lines 35-54):
either the decoded UTF-8 bytes, or the storage-layer failure that the helper
translates (`NotFound` to `FileNotFoundError`, `Forbidden` to
`PermissionError`, anything else to `RuntimeError`). -/
inductive ReadOutcome where
  | ok (raw : String)
  | notFound
  | permissionDenied
  | ioFailure
deriving DecidableEq, Repr

/-- Oracle for the output upload (`upload_to_gcs`, lines 57-71): success, a
`Forbidden` translated to `PermissionError`, or any other failure translated
to `RuntimeError`. -/
inductive UploadOutcome where
  | ok
  | permissionDenied
  | ioFailure
deriving DecidableEq, Repr

/-- Oracle for `TTS(language=..., device=...)` and `model.hps.data.spk2id`
(lines 141-142): either the engine's speaker catalog as an
insertion-ordered association list, or an exception during initialization. -/
inductive TTSInit where
  | ok (catalog : List (String × Nat))
  | fail
deriving DecidableEq, Repr

/-- One `print`/`warnings.warn` emission of `main.py`, tagged by site. -/
inductive LogEntry where
  | clientNotInitialized
  | missingOutputBucket
  | malformedEvent
  | skippedNonTxt
  | readError (e : PyErr)
  | emptyFile
  | invalidLanguage
  | invalidEnSpeakerWarning
  | enSpeakerNotInCatalog
  | nonEnglishFallbackWarning
  | processingError (e : PyErr)
  | tempRemoved
  | tempRemoveError
deriving DecidableEq, Repr

/-- The message part of a normal `return (msg, code)` of the handler,
tagged by return site. -/
inductive AckMsg where
  | malformedEvent
  | notTxt
  | readErr (e : PyErr)
  | emptyFile
  | success
deriving DecidableEq, Repr

/-- How one invocation of the handler ends: a normal return `(msg, code)`
(the event is acknowledged) or an exception propagating to the platform. -/
inductive Outcome where
  | ack (msg : AckMsg) (code : Nat)
  | raised (e : PyErr)
deriving DecidableEq, Repr

/-- Effect trace of one invocation. -/
structure Trace where
  readAttempted : Bool
  tempCreated : Bool
  outputWritten : Bool
  tempExistsAfter : Bool
  log : List LogEntry
deriving DecidableEq, Repr

/-- The state of the process and the oracles for one invocation:
module-level configuration (lines 14-26), the CloudEvent payload fields
(lines 90-92), and one oracle per external call the invocation may make. -/
structure Env where
  storageClientAvailable : Bool
  outputBucket : Option String
  defaultLanguageRaw : String
  defaultSpeaker : String
  eventBucket : Option String
  eventName : Option String
  readO : ReadOutcome
  ttsInitO : TTSInit
  tmpCreateOk : Bool
  ttsRunOk : Bool
  uploadO : UploadOutcome
  removeOk : Bool
deriving DecidableEq, Repr

/-- Python truthiness test `not x` for an optional string: true when the
value is absent (`None`) or the empty string. -/
def falsyStr : Option String → Bool
  | none => true
  | some s => if s = "" then true else false

/-- ASCII lowercase mapping of one character, modelling Python `str.lower`
on the ASCII names and configuration values this module handles. -/
def lowerChar (c : Char) : Char :=
  if 'A' ≤ c ∧ c ≤ 'Z' then Char.ofNat (c.toNat + 32) else c

/-- ASCII uppercase mapping of one character, modelling Python `str.upper`
on the ASCII configuration values this module handles. -/
def upperChar (c : Char) : Char :=
  if 'a' ≤ c ∧ c ≤ 'z' then Char.ofNat (c.toNat - 32) else c

/-- Python `str.lower()`. -/
def pyLower (s : String) : String := String.mk (s.data.map lowerChar)

/-- Python `str.upper()` (line 23 applies it to `DEFAULT_LANGUAGE`). -/
def pyUpper (s : String) : String := String.mk (s.data.map upperChar)

/-- Python `str.endswith(suffix)` (the `.txt` filter at line 102). -/
def pyEndsWith (s suffix : String) : Bool :=
  if s.data.length < suffix.data.length then false
  else if s.data.drop (s.data.length - suffix.data.length) = suffix.data then true
  else false

/-- Whether a character is ASCII whitespace as stripped by Python
`str.strip()`. -/
def isPySpace (c : Char) : Bool :=
  if c = ' ' ∨ c = '\t' ∨ c = '\n' ∨ c = '\r' ∨ c = '\x0b' ∨ c = '\x0c' then true
  else false

/-- Remove the leading whitespace of a character list. -/
def dropLeadingSpaces : List Char → List Char
  | [] => []
  | c :: cs => if isPySpace c then dropLeadingSpaces cs else c :: cs

/-- Python `str.strip()`: remove leading and trailing whitespace (applied
to the downloaded text at line 48). -/
def pyStrip (s : String) : String :=
  String.mk (dropLeadingSpaces (dropLeadingSpaces s.data).reverse).reverse

/-- Membership of a string in a list of strings (Python `in` on a list). -/
def containsStr (x : String) : List String → Bool
  | [] => false
  | s :: rest => if s = x then true else containsStr x rest

/-- Whether a character occurs in a character list. -/
def containsChar (x : Char) : List Char → Bool
  | [] => false
  | c :: cs => if c = x then true else containsChar x cs

/-- Split a character list at its first `'/'`: returns the (slash-free)
prefix and the remainder after that slash, or `none` if no slash occurs.
This is how the greedy `([^/]+)/` part of the regex consumes the string:
`[^/]+` cannot cross a slash, so the separating slash is the first one. -/
def splitAtFirstSlash : List Char → Option (List Char × List Char)
  | [] => none
  | c :: cs =>
    if c = '/' then some ([], cs)
    else
      match splitAtFirstSlash cs with
      | none => none
      | some (pre, post) => some (c :: pre, post)

/-- Embedding of `re.fullmatch(r"gs:\x2f\x2f([^\x2f]+)\x2f(.+)", s)` from
`parse_gcs_uri` (lines 29-33), on the string's characters.  The literal
prefix `gs:` and two slashes must open the string; `[^/]+` matches one or
more characters other than `'/'` (including newline, since a negated class
matches newline); the separating `'/'`; then `(.+)` must consume the entire
remainder, which requires it to be non-empty and to contain no newline,
because `.` does not match `'\n'` in Python's default mode. -/
def parse_gcs_uri_chars (cs : List Char) : Option (List Char × List Char) :=
  match cs with
  | 'g' :: 's' :: ':' :: '/' :: '/' :: rest =>
    match splitAtFirstSlash rest with
    | none => none
    | some (container, path) =>
      if container = [] then none
      else if path = [] then none
      else if containsChar '\n' path then none
      else some (container, path)
  | _ => none

/-- `parse_gcs_uri` (lines 29-33) on Lean strings. -/
def parse_gcs_uri (s : String) : Option (String × String) :=
  match parse_gcs_uri_chars s.data with
  | none => none
  | some (c, p) => some (String.mk c, String.mk p)

/-- First-match lookup in the speaker catalog: Python's
`speaker_ids[name]` / `name in speaker_ids` on the `spk2id` mapping. -/
def lookupSpk (name : String) : List (String × Nat) → Option Nat
  | [] => none
  | (k, v) :: rest => if k = name then some v else lookupSpk name rest

/-- Embedding of `read_text_from_gcs` (lines 35-54): fails with
`RuntimeError` when the storage client is unavailable; otherwise translates
the storage outcome, and on success decodes and strips the content
(`.decode('utf-8').strip()`, modelled by `String.trim`). -/
def read_text_from_gcs (clientAvailable : Bool) (o : ReadOutcome) : Except PyErr String :=
  if clientAvailable = false then .error .runtimeError
  else
    match o with
    | .ok raw => .ok (pyStrip raw)
    | .notFound => .error .fileNotFound
    | .permissionDenied => .error .permissionError
    | .ioFailure => .error .runtimeError

/-- Embedding of `upload_to_gcs` (lines 57-71): `RuntimeError` when the
client is unavailable, `ValueError` when the destination bucket name is
falsy, otherwise the translated upload outcome. -/
def upload_to_gcs (clientAvailable : Bool) (bucketName : Option String)
    (o : UploadOutcome) : Except PyErr Unit :=
  if clientAvailable = false then .error .runtimeError
  else if falsyStr bucketName then .error .valueError
  else
    match o with
    | .ok => .ok ()
    | .permissionDenied => .error .permissionError
    | .ioFailure => .error .runtimeError

/-- The fixed allow-list of English speaker labels (line 151). -/
def valid_en_speakers : List String :=
  ["EN-Default", "EN-US", "EN-BR", "EN_INDIA", "EN-AU"]

/-- The languages the event-triggered variant accepts (line 131). -/
def valid_languages : List String := ["EN", "ES", "FR"]

/-- Embedding of the speaker-selection block (lines 149-177).  Returns the
warnings/errors printed during selection together with either the selected
speaker identity or the `KeyError` raised on an empty catalog.  For English:
a label outside the allow-list degrades to `"EN-Default"` with a warning; a
label absent from the catalog falls back to the first catalog value after an
error print, raising `KeyError` only when the catalog is empty.  For any
other language: an empty catalog raises `KeyError`; a label present in the
catalog is used; otherwise the first catalog entry is used with a warning. -/
def selectSpeaker (language speaker_input : String) (spk2id : List (String × Nat)) :
    List LogEntry × Except PyErr Nat :=
  if language = "EN" then
    let step1 : List LogEntry × String :=
      if containsStr speaker_input valid_en_speakers then ([], speaker_input)
      else ([.invalidEnSpeakerWarning], "EN-Default")
    match lookupSpk step1.2 spk2id with
    | some sid => (step1.1, .ok sid)
    | none =>
      match spk2id with
      | [] => (step1.1 ++ [.enSpeakerNotInCatalog], .error .keyError)
      | (_, v) :: _ => (step1.1 ++ [.enSpeakerNotInCatalog], .ok v)
  else
    match spk2id with
    | [] => ([], .error .keyError)
    | (_, v0) :: _ =>
      match lookupSpk speaker_input spk2id with
      | some sid => ([], .ok sid)
      | none => ([.nonEnglishFallbackWarning], .ok v0)

/-- Result of the `try` region (lines 138-199) before the handlers and the
`finally` block run. -/
structure TryResult where
  result : Except PyErr Unit
  tempCreated : Bool
  outputWritten : Bool
  log : List LogEntry
deriving Repr

/-- Embedding of the `try` region (lines 138-199): initialize the engine,
select the speaker, create the temporary file, synthesize, upload.  Any
exception escapes the region (both `except` handlers at lines 201-211
re-raise), so the region's result is the first failure or success. -/
def runTryRegion (env : Env) (language : String) : TryResult :=
  match env.ttsInitO with
  | .fail => ⟨.error .unexpected, false, false, []⟩
  | .ok catalog =>
    let sel := selectSpeaker language env.defaultSpeaker catalog
    match sel.2 with
    | .error e => ⟨.error e, false, false, sel.1⟩
    | .ok _ =>
      if env.tmpCreateOk = false then ⟨.error .unexpected, false, false, sel.1⟩
      else if env.ttsRunOk = false then ⟨.error .unexpected, true, false, sel.1⟩
      else
        match upload_to_gcs env.storageClientAvailable env.outputBucket env.uploadO with
        | .error e => ⟨.error e, true, false, sel.1⟩
        | .ok _ => ⟨.ok (), true, true, sel.1⟩

/-- Intermediate result of one invocation before the `finally` cleanup. -/
structure CoreResult where
  outcome : Outcome
  readAttempted : Bool
  tempCreated : Bool
  outputWritten : Bool
  log : List LogEntry
deriving Repr

/-- Embedding of `melo_tts_gcs_trigger` (lines 75-211) up to but excluding
the `finally` block: the storage-client and output-bucket guards, the
malformed-event and non-`.txt` acknowledgements, the source read with its
per-error-class acknowledgement (`500` for `RuntimeError`, `200` otherwise,
line 118), the empty-content acknowledgement, the configured-language gate
against `valid_languages`, and the `try` region whose exceptions the two
`except` handlers log and re-raise. -/
def triggerCore (env : Env) : CoreResult :=
  if env.storageClientAvailable = false then
    ⟨.raised .runtimeError, false, false, false, [.clientNotInitialized]⟩
  else if falsyStr env.outputBucket then
    ⟨.raised .valueError, false, false, false, [.missingOutputBucket]⟩
  else if falsyStr env.eventBucket || falsyStr env.eventName then
    ⟨.ack .malformedEvent 200, false, false, false, [.malformedEvent]⟩
  else if pyEndsWith (pyLower (env.eventName.getD "")) ".txt" = false then
    ⟨.ack .notTxt 200, false, false, false, [.skippedNonTxt]⟩
  else
    match read_text_from_gcs env.storageClientAvailable env.readO with
    | .error e =>
      ⟨.ack (.readErr e) (if e = .runtimeError then 500 else 200),
        true, false, false, [.readError e]⟩
    | .ok text =>
      if text = "" then
        ⟨.ack .emptyFile 200, true, false, false, [.emptyFile]⟩
      else if containsStr (pyUpper env.defaultLanguageRaw) valid_languages = false then
        ⟨.raised .valueError, true, false, false, [.invalidLanguage]⟩
      else
        let t := runTryRegion env (pyUpper env.defaultLanguageRaw)
        match t.result with
        | .ok _ => ⟨.ack .success 200, true, t.tempCreated, t.outputWritten, t.log⟩
        | .error e =>
          ⟨.raised e, true, t.tempCreated, t.outputWritten, t.log ++ [.processingError e]⟩

/-- Embedding of the `finally` block (lines 212-219): if the temporary path
was created (the file then exists, `NamedTemporaryFile` with
`delete=False`), attempt `os.remove`; a failed removal is logged and
swallowed, leaving the file in place.  Returns whether the file exists
afterwards, and the cleanup log. -/
def cleanupTemp (tempCreated removeOk : Bool) : Bool × List LogEntry :=
  if tempCreated then
    if removeOk then (false, [.tempRemoved]) else (true, [.tempRemoveError])
  else (false, [])

/-- Embedding of the whole handler `melo_tts_gcs_trigger`: the core
followed by the unconditional `finally` cleanup, which never alters the
outcome. -/
def melo_tts_gcs_trigger (env : Env) : Outcome × Trace :=
  let c := triggerCore env
  let cl := cleanupTemp c.tempCreated env.removeOk
  (c.outcome, ⟨c.readAttempted, c.tempCreated, c.outputWritten, cl.1, c.log ++ cl.2⟩)

/-- The guards an invocation must pass to reach the source read (lines
80-104): client available, output bucket configured, both event fields
truthy, and a (case-insensitively) `.txt` object name. -/
def reachesRead (env : Env) : Bool :=
  env.storageClientAvailable
    && !(falsyStr env.outputBucket)
    && !(falsyStr env.eventBucket)
    && !(falsyStr env.eventName)
    && pyEndsWith (pyLower (env.eventName.getD "")) ".txt"

/-- Whether the read oracle yields non-empty stripped content. -/
def readNonEmpty (env : Env) : Bool :=
  match env.readO with
  | .ok raw => if pyStrip raw = "" then false else true
  | _ => false

/-- The guards an invocation must pass to enter the `try` region. -/
def reachesTry (env : Env) : Bool :=
  reachesRead env && readNonEmpty env
    && containsStr (pyUpper env.defaultLanguageRaw) valid_languages

/-- Whether engine initialization and speaker selection both succeed. -/
def selectionOk (env : Env) : Bool :=
  match env.ttsInitO with
  | .fail => false
  | .ok catalog =>
    match (selectSpeaker (pyUpper env.defaultLanguageRaw) env.defaultSpeaker catalog).2 with
    | .ok _ => true
    | .error _ => false

/-- The guards an invocation must pass to reach the output upload. -/
def reachesUpload (env : Env) : Bool :=
  reachesTry env && selectionOk env && env.tmpCreateOk && env.ttsRunOk

/-- Value of a successful Python `float()` call: a finite decimal
`mantissa * 10 ^ exp10` (kept unnormalized), an infinity, or a NaN. -/
inductive PyFloatVal where
  | finite (mantissa : Int) (exp10 : Int)
  | inf
  | negInf
  | nan
deriving DecidableEq, Repr

/-- Consume a maximal prefix of decimal digits. -/
def takeDigits : List Char → List Char × List Char
  | [] => ([], [])
  | c :: cs =>
    if c.isDigit then
      match takeDigits cs with
      | (ds, rest) => (c :: ds, rest)
    else ([], c :: cs)

/-- Numeric value of a digit list. -/
def digitsToNat (ds : List Char) : Nat :=
  ds.foldl (fun a c => 10 * a + (c.toNat - 48)) 0

/-- Parse an optionally signed non-empty digit string that must consume the
whole input (the exponent of a float literal). -/
def parseSignedDigits (cs : List Char) : Option Int :=
  let sr : Int × List Char :=
    match cs with
    | '+' :: r => (1, r)
    | '-' :: r => (-1, r)
    | r => (1, r)
  match takeDigits sr.2 with
  | (ds, rest) => if ds = [] ∨ rest ≠ [] then none else some (sr.1 * digitsToNat ds)

/-- Parse the optional exponent part `e`/`E` of a float literal (the input
is already lowercased); must consume the whole input. -/
def parseExpPart : List Char → Option Int
  | [] => some 0
  | 'e' :: rest => parseSignedDigits rest
  | _ => none

/-- Parse an unsigned finite float literal: `digits [. digits] [e exp]` or
`. digits [e exp]`, consuming the whole input.  Returns the digit string's
value as a mantissa together with the decimal exponent (the written
exponent minus the length of the fractional part). -/
def parseFiniteMagnitude (cs : List Char) : Option (Nat × Int) :=
  match takeDigits cs with
  | (ip, r1) =>
    match r1 with
    | '.' :: r2 =>
      match takeDigits r2 with
      | (fp, r3) =>
        if ip = [] ∧ fp = [] then none
        else
          match parseExpPart r3 with
          | none => none
          | some e => some (digitsToNat (ip ++ fp), e - fp.length)
    | _ =>
      if ip = [] then none
      else
        match parseExpPart r1 with
        | none => none
        | some e => some (digitsToNat ip, e)

/-- Model of Python `float(s)` on a string: strip surrounding whitespace,
lowercase, take an optional sign, then accept `inf`/`infinity`/`nan` or a
finite decimal literal with optional fraction and exponent.  Returns `none`
exactly when `float(s)` raises `ValueError`. -/
def pyFloat (s : String) : Option PyFloatVal :=
  let t := (pyLower (pyStrip s)).data
  let sr : Bool × List Char :=
    match t with
    | '+' :: r => (false, r)
    | '-' :: r => (true, r)
    | r => (false, r)
  if sr.2 = ['i', 'n', 'f'] ∨ sr.2 = ['i', 'n', 'f', 'i', 'n', 'i', 't', 'y'] then
    some (if sr.1 then .negInf else .inf)
  else if sr.2 = ['n', 'a', 'n'] then some .nan
  else
    match parseFiniteMagnitude sr.2 with
    | some me => some (.finite (if sr.1 then -(me.1 : Int) else (me.1 : Int)) me.2)
    | none => none

/-- Embedding of line 25,
`DEFAULT_SPEED = float(os.environ.get('DEFAULT_SPEED', 1.0))`, run at
module import: when the environment variable is unset the default `1.0` is
used; when it is set, `float()` is applied to it directly and a failed
conversion raises `ValueError` (crashing the import). -/
def initDefaultSpeed (envVar : Option String) : Except PyErr PyFloatVal :=
  match envVar with
  | none => .ok (.finite 1 0)
  | some s =>
    match pyFloat s with
    | some v => .ok v
    | none => .error .valueError

/-- A healthy baseline environment: client initialized, output bucket
configured, defaults as shipped (`EN`, `EN-Default`), a `.txt` event, a
non-empty readable source, a catalog containing the default speaker, and
all later effects succeeding. -/
def baseEnv : Env where
  storageClientAvailable := true
  outputBucket := some "out-bucket"
  defaultLanguageRaw := "EN"
  defaultSpeaker := "EN-Default"
  eventBucket := some "in-bucket"
  eventName := some "notes.txt"
  readO := .ok "Hello world"
  ttsInitO := .ok [("EN-Default", 0), ("EN-US", 1)]
  tmpCreateOk := true
  ttsRunOk := true
  uploadO := .ok
  removeOk := true

/-- Unpack the guard conjunction `reachesRead`. -/
theorem reachesRead_spec (env : Env) (h : reachesRead env = true) :
    env.storageClientAvailable = true ∧ falsyStr env.outputBucket = false
    ∧ falsyStr env.eventBucket = false ∧ falsyStr env.eventName = false
    ∧ pyEndsWith (pyLower (env.eventName.getD "")) ".txt" = true := by
  simp only [reachesRead, Bool.and_eq_true, Bool.not_eq_true'] at h
  exact ⟨h.1.1.1.1, h.1.1.1.2, h.1.1.2, h.1.2, h.2⟩

/-- Unpack the guard conjunction `reachesTry`. -/
theorem reachesTry_spec (env : Env) (h : reachesTry env = true) :
    reachesRead env = true
    ∧ (∃ raw, env.readO = .ok raw ∧ pyStrip raw ≠ "")
    ∧ containsStr (pyUpper env.defaultLanguageRaw) valid_languages = true := by
  simp only [reachesTry, Bool.and_eq_true] at h
  refine ⟨h.1.1, ?_, h.2⟩
  have hr := h.1.2
  unfold readNonEmpty at hr
  cases hro : env.readO with
  | ok raw =>
    simp only [hro] at hr
    by_cases he : pyStrip raw = ""
    · simp [he] at hr
    · exact ⟨raw, rfl, he⟩
  | notFound => simp [hro] at hr
  | permissionDenied => simp [hro] at hr
  | ioFailure => simp [hro] at hr

/-- Unpack `selectionOk`: a successfully initialized engine and a speaker
selection that returned an identity. -/
theorem selectionOk_spec (env : Env) (h : selectionOk env = true) :
    ∃ catalog sid, env.ttsInitO = .ok catalog
      ∧ (selectSpeaker (pyUpper env.defaultLanguageRaw) env.defaultSpeaker catalog).2
          = .ok sid := by
  unfold selectionOk at h
  cases hI : env.ttsInitO with
  | fail => simp [hI] at h
  | ok catalog =>
    simp only [hI] at h
    cases hs : (selectSpeaker (pyUpper env.defaultLanguageRaw) env.defaultSpeaker catalog).2 with
    | ok sid => exact ⟨catalog, sid, rfl, hs⟩
    | error e => simp [hs] at h

/-- The speaker-selection block can only raise `KeyError` (both of its
`raise` sites construct a `KeyError`). -/
theorem selectSpeaker_error_eq_keyError (language speaker_input : String)
    (catalog : List (String × Nat)) (e : PyErr)
    (h : (selectSpeaker language speaker_input catalog).2 = .error e) :
    e = .keyError := by
  by_cases hl : language = "EN"
  · subst hl
    cases hcb : containsStr speaker_input valid_en_speakers with
    | true =>
      cases hlk : lookupSpk speaker_input catalog with
      | some sid => simp [selectSpeaker, hcb, hlk] at h
      | none =>
        cases catalog with
        | nil => simp_all [selectSpeaker, hcb, hlk]
        | cons p rest => simp [selectSpeaker, hcb, hlk] at h
    | false =>
      cases hlk : lookupSpk "EN-Default" catalog with
      | some sid => simp [selectSpeaker, hcb, hlk] at h
      | none =>
        cases catalog with
        | nil => simp_all [selectSpeaker, hcb, hlk]
        | cons p rest => simp [selectSpeaker, hcb, hlk] at h
  · cases catalog with
    | nil => simp_all [selectSpeaker, hl]
    | cons p rest =>
      cases hlk : lookupSpk speaker_input (p :: rest) with
      | some sid => simp [selectSpeaker, hl, hlk] at h
      | none => simp [selectSpeaker, hl, hlk] at h

/-- The upload helper, called with an available client and a configured
bucket, fails only with `PermissionError` or `RuntimeError`. -/
theorem upload_error_kinds (avail : Bool) (bucketName : Option String)
    (o : UploadOutcome) (e : PyErr)
    (h1 : avail = true) (h2 : falsyStr bucketName = false)
    (h : upload_to_gcs avail bucketName o = .error e) :
    e = .permissionError ∨ e = .runtimeError := by
  subst h1
  cases o <;> simp [upload_to_gcs, h2] at h <;> simp [h]

/-- The `try` region, entered with an available client and a configured
bucket, never fails with `ValueError`: its exceptions are the selection's
`KeyError`, an engine failure's unexpected exception, or the upload's
`PermissionError`/`RuntimeError`. -/
theorem runTryRegion_no_valueError (env : Env) (language : String) (e : PyErr)
    (h1 : env.storageClientAvailable = true) (h2 : falsyStr env.outputBucket = false)
    (h : (runTryRegion env language).result = .error e) :
    e ≠ .valueError := by
  unfold runTryRegion at h
  cases hI : env.ttsInitO with
  | fail =>
    simp only [hI] at h
    have he : PyErr.unexpected = e := by simpa using h
    intro hv
    rw [hv] at he
    exact PyErr.noConfusion he
  | ok catalog =>
    simp only [hI] at h
    cases hs : (selectSpeaker language env.defaultSpeaker catalog).2 with
    | error e2 =>
      simp only [hs] at h
      have he : e2 = e := by simpa using h
      have hk := selectSpeaker_error_eq_keyError language env.defaultSpeaker catalog e2 hs
      intro hv
      rw [hv] at he
      rw [he] at hk
      exact PyErr.noConfusion hk
    | ok sid =>
      simp only [hs] at h
      cases htmp : env.tmpCreateOk with
      | false =>
        simp only [htmp] at h
        have he : PyErr.unexpected = e := by simpa using h
        intro hv
        rw [hv] at he
        exact PyErr.noConfusion he
      | true =>
        cases htts : env.ttsRunOk with
        | false =>
          simp only [htmp, htts] at h
          have he : PyErr.unexpected = e := by simpa using h
          intro hv
          rw [hv] at he
          exact PyErr.noConfusion he
        | true =>
          simp only [htmp, htts] at h
          cases hu : upload_to_gcs env.storageClientAvailable env.outputBucket env.uploadO with
          | error e3 =>
            simp only [hu] at h
            have he : e3 = e := by simpa using h
            intro hv
            rcases upload_error_kinds env.storageClientAvailable env.outputBucket
              env.uploadO e3 h1 h2 hu with h3 | h3 <;>
              (rw [hv] at he; rw [he] at h3; exact PyErr.noConfusion h3)
          | ok u => simp [hu] at h

/-- C1: in the event-triggered variant, an invocation whose source read
fails with a per-input data error (file not found, or permission denied
reading the source object) is acknowledged successfully — it returns
normally with status 200 rather than raising — the error is logged, and no
output object is written. -/
theorem c1_read_data_error_acked (env : Env) (e : PyErr)
    (h1 : env.storageClientAvailable = true)
    (h2 : falsyStr env.outputBucket = false)
    (h3 : falsyStr env.eventBucket = false)
    (h4 : falsyStr env.eventName = false)
    (h5 : pyEndsWith (pyLower (env.eventName.getD "")) ".txt" = true)
    (h6 : env.readO = .notFound ∧ e = .fileNotFound
        ∨ env.readO = .permissionDenied ∧ e = .permissionError) :
    (melo_tts_gcs_trigger env).1 = .ack (.readErr e) 200
    ∧ LogEntry.readError e ∈ (melo_tts_gcs_trigger env).2.log
    ∧ (melo_tts_gcs_trigger env).2.outputWritten = false := by
  rcases h6 with ⟨hr, he⟩ | ⟨hr, he⟩ <;> subst he <;>
    simp [melo_tts_gcs_trigger, triggerCore, cleanupTemp, read_text_from_gcs,
      h1, h2, h3, h4, h5, hr]

/-- Witness for C1: a permission-denied read of `notes.txt` is acknowledged
with status 200, logged, and writes no output. -/
theorem c1_read_data_error_acked_witness :
    (melo_tts_gcs_trigger { baseEnv with readO := .permissionDenied }).1
        = .ack (.readErr .permissionError) 200
    ∧ LogEntry.readError .permissionError
        ∈ (melo_tts_gcs_trigger { baseEnv with readO := .permissionDenied }).2.log
    ∧ (melo_tts_gcs_trigger { baseEnv with readO := .permissionDenied }).2.outputWritten
        = false :=
  c1_read_data_error_acked _ _ (by decide) (by decide) (by decide) (by decide)
    (by decide) (Or.inr ⟨rfl, rfl⟩)

/-- C7 counterexample: with `DEFAULT_SPEED` set to `"fast"`, whose float
conversion fails, module initialization raises `ValueError` instead of
falling back to the default speed 1.0 and proceeding. -/
theorem c7_bad_speed_counterexample :
    pyFloat "fast" = none
    ∧ initDefaultSpeed (some "fast") = .error .valueError
    ∧ initDefaultSpeed (some "fast") ≠ .ok (.finite 1 0) :=
  ⟨rfl, rfl, by intro h; exact Except.noConfusion h⟩

/-- C7 amended: a `DEFAULT_SPEED` value whose float conversion fails makes
the module-level assignment at line 25 raise `ValueError` (so the import
crashes); there is no silent fallback to the default speed in this
variant. -/
theorem c7_bad_speed_raises (s : String) (h : pyFloat s = none) :
    initDefaultSpeed (some s) = .error .valueError := by
  simp [initDefaultSpeed, h]

/-- Witness for the amended C7 at the concrete value `"fast"`. -/
theorem c7_bad_speed_raises_witness :
    initDefaultSpeed (some "fast") = .error .valueError :=
  c7_bad_speed_raises "fast" rfl

/-- C8: an event whose object name does not end in `.txt`
(case-insensitively: the code lowercases the name before the suffix test)
is acknowledged as skipped before any storage read is attempted — no bytes
are fetched and no output is produced. -/
theorem c8_non_txt_input_skipped (env : Env)
    (h1 : env.storageClientAvailable = true)
    (h2 : falsyStr env.outputBucket = false)
    (h3 : falsyStr env.eventBucket = false)
    (h4 : falsyStr env.eventName = false)
    (h5 : pyEndsWith (pyLower (env.eventName.getD "")) ".txt" = false) :
    (melo_tts_gcs_trigger env).1 = .ack .notTxt 200
    ∧ (melo_tts_gcs_trigger env).2.readAttempted = false
    ∧ (melo_tts_gcs_trigger env).2.outputWritten = false := by
  simp [melo_tts_gcs_trigger, triggerCore, cleanupTemp, h1, h2, h3, h4, h5]

/-- Witness for C8: the event for `notes.md` is skipped with status 200,
with no read attempted and no output written. -/
theorem c8_non_txt_input_skipped_witness :
    (melo_tts_gcs_trigger { baseEnv with eventName := some "notes.md" }).1
        = .ack .notTxt 200
    ∧ (melo_tts_gcs_trigger { baseEnv with eventName := some "notes.md" }).2.readAttempted
        = false
    ∧ (melo_tts_gcs_trigger { baseEnv with eventName := some "notes.md" }).2.outputWritten
        = false :=
  c8_non_txt_input_skipped _ (by decide) (by decide) (by decide) (by decide) (by decide)

/-- C3: English speaker selection in the event-triggered variant.  A
requested label outside the fixed allow-list degrades to `"EN-Default"`
with a logged warning instead of failing (the selection result is the one
the default label would get); an effective label absent from the engine's
catalog falls back to the first catalog entry, failing (`KeyError`) only
when the catalog is empty; an effective label present in the catalog
selects exactly that catalog entry. -/
theorem c3_english_speaker_selection (speaker_input : String)
    (catalog : List (String × Nat)) :
    (containsStr speaker_input valid_en_speakers = false →
        LogEntry.invalidEnSpeakerWarning ∈ (selectSpeaker "EN" speaker_input catalog).1
        ∧ (selectSpeaker "EN" speaker_input catalog).2
            = (selectSpeaker "EN" "EN-Default" catalog).2)
    ∧ (lookupSpk (if containsStr speaker_input valid_en_speakers then speaker_input
          else "EN-Default") catalog = none →
        (catalog = [] → (selectSpeaker "EN" speaker_input catalog).2 = .error .keyError)
        ∧ ∀ k v rest, catalog = (k, v) :: rest →
            (selectSpeaker "EN" speaker_input catalog).2 = .ok v)
    ∧ (∀ sid,
        lookupSpk (if containsStr speaker_input valid_en_speakers then speaker_input
          else "EN-Default") catalog = some sid →
        (selectSpeaker "EN" speaker_input catalog).2 = .ok sid) := by
  have hd : containsStr "EN-Default" valid_en_speakers = true := by decide
  cases hcb : containsStr speaker_input valid_en_speakers with
  | false =>
    refine ⟨fun _ => ⟨?_, ?_⟩, fun hl => ?_, fun sid hl => ?_⟩
    · cases hl : lookupSpk "EN-Default" catalog with
      | some sid => simp [selectSpeaker, hcb, hl]
      | none =>
        cases catalog with
        | nil => simp [selectSpeaker, hcb, hl]
        | cons p rest => simp [selectSpeaker, hcb, hl]
    · cases hl : lookupSpk "EN-Default" catalog with
      | some sid => simp [selectSpeaker, hcb, hd, hl]
      | none =>
        cases catalog with
        | nil => simp [selectSpeaker, hcb, hd, hl]
        | cons p rest => simp [selectSpeaker, hcb, hd, hl]
    · rw [if_neg (by simp)] at hl
      refine ⟨fun hcat => ?_, fun k v rest hcat => ?_⟩
      · subst hcat; simp [selectSpeaker, hcb, hl]
      · subst hcat; simp [selectSpeaker, hcb, hl]
    · rw [if_neg (by simp)] at hl
      simp [selectSpeaker, hcb, hl]
  | true =>
    refine ⟨fun h => absurd h (by simp), fun hl => ?_, fun sid hl => ?_⟩
    · rw [if_pos rfl] at hl
      refine ⟨fun hcat => ?_, fun k v rest hcat => ?_⟩
      · subst hcat; simp [selectSpeaker, hcb, hl]
      · subst hcat; simp [selectSpeaker, hcb, hl]
    · rw [if_pos rfl] at hl
      simp [selectSpeaker, hcb, hl]

/-- Witness for C3: requesting the off-list label `"EN-XY"` warns and
behaves like `"EN-Default"`; with the default label present in the catalog
`[("EN-Default", 0), ("EN-US", 1)]` the selection is its entry 0. -/
theorem c3_english_speaker_selection_witness :
    (LogEntry.invalidEnSpeakerWarning
        ∈ (selectSpeaker "EN" "EN-XY" [("EN-Default", 0), ("EN-US", 1)]).1
      ∧ (selectSpeaker "EN" "EN-XY" [("EN-Default", 0), ("EN-US", 1)]).2
          = (selectSpeaker "EN" "EN-Default" [("EN-Default", 0), ("EN-US", 1)]).2)
    ∧ (selectSpeaker "EN" "EN-US" [("EN-Default", 0), ("EN-US", 1)]).2 = .ok 1
    ∧ (selectSpeaker "EN" "EN-AU" [("EN-Default", 0), ("EN-US", 1)]).2 = .ok 0
    ∧ (selectSpeaker "EN" "EN-AU" []).2 = .error .keyError :=
  ⟨(c3_english_speaker_selection "EN-XY" [("EN-Default", 0), ("EN-US", 1)]).1 (by decide),
   (c3_english_speaker_selection "EN-US" [("EN-Default", 0), ("EN-US", 1)]).2.2 1 (by decide),
   ((c3_english_speaker_selection "EN-AU" [("EN-Default", 0), ("EN-US", 1)]).2.1
      (by decide)).2 "EN-Default" 0 [("EN-US", 1)] rfl,
   ((c3_english_speaker_selection "EN-AU" []).2.1 (by decide)).1 rfl⟩

/-- C4: non-English speaker selection.  A requested label that is a key of
the engine's catalog selects that catalog entry; otherwise any non-empty
catalog falls back to its first entry with a non-fatal warning and does not
fail; an empty catalog always fails with a `KeyError`. -/
theorem c4_non_english_speaker_selection (language speaker_input : String)
    (hne : language ≠ "EN") (catalog : List (String × Nat)) :
    (∀ sid, lookupSpk speaker_input catalog = some sid →
        (selectSpeaker language speaker_input catalog).2 = .ok sid)
    ∧ (lookupSpk speaker_input catalog = none →
        ∀ k v rest, catalog = (k, v) :: rest →
          (selectSpeaker language speaker_input catalog).2 = .ok v
          ∧ LogEntry.nonEnglishFallbackWarning
              ∈ (selectSpeaker language speaker_input catalog).1)
    ∧ (catalog = [] →
        (selectSpeaker language speaker_input catalog).2 = .error .keyError) := by
  refine ⟨fun sid hl => ?_, fun hl k v rest hcat => ?_, fun hcat => ?_⟩
  · cases catalog with
    | nil => simp [lookupSpk] at hl
    | cons p rest => simp [selectSpeaker, hne, hl]
  · subst hcat
    exact ⟨by simp [selectSpeaker, hne, hl], by simp [selectSpeaker, hne, hl]⟩
  · subst hcat; simp [selectSpeaker, hne]

/-- Witness for C4: for Spanish with catalog `[("ES", 7)]`, the present
label `"ES"` selects 7; the absent label `"EN-Default"` falls back to 7
with the warning; the empty catalog fails. -/
theorem c4_non_english_speaker_selection_witness :
    (selectSpeaker "ES" "ES" [("ES", 7)]).2 = .ok 7
    ∧ ((selectSpeaker "ES" "EN-Default" [("ES", 7)]).2 = .ok 7
        ∧ LogEntry.nonEnglishFallbackWarning
            ∈ (selectSpeaker "ES" "EN-Default" [("ES", 7)]).1)
    ∧ (selectSpeaker "FR" "x" []).2 = .error .keyError :=
  ⟨(c4_non_english_speaker_selection "ES" "ES" (by decide) [("ES", 7)]).1 7 (by decide),
   (c4_non_english_speaker_selection "ES" "EN-Default" (by decide) [("ES", 7)]).2.1
      (by decide) "ES" 7 [] rfl,
   (c4_non_english_speaker_selection "FR" "x" (by decide) []).2.2 rfl⟩

/-- C10: an event payload with the bucket field or the object-name field
missing or empty is acknowledged with status 200 — the handler returns
normally without raising, attempts no storage read and writes no output. -/
theorem c10_malformed_event_acked (env : Env)
    (h1 : env.storageClientAvailable = true)
    (h2 : falsyStr env.outputBucket = false)
    (h3 : falsyStr env.eventBucket = true ∨ falsyStr env.eventName = true) :
    (melo_tts_gcs_trigger env).1 = .ack .malformedEvent 200
    ∧ (melo_tts_gcs_trigger env).2.readAttempted = false
    ∧ (melo_tts_gcs_trigger env).2.outputWritten = false := by
  rcases h3 with h3 | h3 <;>
    simp [melo_tts_gcs_trigger, triggerCore, cleanupTemp, h1, h2, h3]

/-- Witness for C10: an event payload with no object name is acknowledged
with status 200, no read, no output. -/
theorem c10_malformed_event_acked_witness :
    (melo_tts_gcs_trigger { baseEnv with eventName := none }).1
        = .ack .malformedEvent 200
    ∧ (melo_tts_gcs_trigger { baseEnv with eventName := none }).2.readAttempted = false
    ∧ (melo_tts_gcs_trigger { baseEnv with eventName := none }).2.outputWritten = false :=
  c10_malformed_event_acked _ (by decide) (by decide) (Or.inr (by decide))

/-- C5 counterexample: on an otherwise successful invocation whose
temporary-file removal fails, the temporary artifact path was created and
the file still exists after the `finally` block — contradicting the claim
that on every exit path a created artifact no longer exists afterwards
(while, as the claim's second half says, the failure is only logged). -/
theorem c5_cleanup_failure_counterexample :
    (melo_tts_gcs_trigger { baseEnv with removeOk := false }).2.tempCreated = true
    ∧ (melo_tts_gcs_trigger { baseEnv with removeOk := false }).2.tempExistsAfter = true
    ∧ (melo_tts_gcs_trigger { baseEnv with removeOk := false }).1
        = .ack .success 200 := by decide

/-- C5 amended: on every exit path of the try region, the `finally` block
attempts removal of the created temporary artifact: when removal succeeds
the file no longer exists afterwards; a removal failure is logged only and
never raises or changes the invocation's outcome (the outcome is invariant
under the removal oracle). -/
theorem c5_cleanup_policy (env : Env) (b : Bool) :
    (melo_tts_gcs_trigger { env with removeOk := b }).1 = (melo_tts_gcs_trigger env).1
    ∧ (env.removeOk = true →
        (melo_tts_gcs_trigger env).2.tempExistsAfter = false)
    ∧ ((melo_tts_gcs_trigger env).2.tempCreated = true →
        (env.removeOk = true →
            LogEntry.tempRemoved ∈ (melo_tts_gcs_trigger env).2.log)
        ∧ (env.removeOk = false →
            LogEntry.tempRemoveError ∈ (melo_tts_gcs_trigger env).2.log)) := by
  refine ⟨by cases env; rfl, fun hr => ?_, fun htc => ⟨fun hr => ?_, fun hr => ?_⟩⟩
  · cases htc : (triggerCore env).tempCreated <;>
      simp [melo_tts_gcs_trigger, cleanupTemp, hr, htc]
  · have htc' : (triggerCore env).tempCreated = true := by
      simpa [melo_tts_gcs_trigger] using htc
    simp [melo_tts_gcs_trigger, cleanupTemp, hr, htc']
  · have htc' : (triggerCore env).tempCreated = true := by
      simpa [melo_tts_gcs_trigger] using htc
    simp [melo_tts_gcs_trigger, cleanupTemp, hr, htc']

/-- Witness for the amended C5 on the healthy baseline environment: the
outcome is unchanged when the removal oracle is flipped to failing, and
with a succeeding removal no artifact remains. -/
theorem c5_cleanup_policy_witness :
    (melo_tts_gcs_trigger { baseEnv with removeOk := false }).1
        = (melo_tts_gcs_trigger baseEnv).1
    ∧ (melo_tts_gcs_trigger baseEnv).2.tempExistsAfter = false :=
  ⟨(c5_cleanup_policy baseEnv false).1, (c5_cleanup_policy baseEnv false).2.1 rfl⟩

/-- C6 counterexample: with everything else healthy and the configured
language `"ZH"` — a member of the claim's supported set
{EN, ES, FR, ZH, JP, KR} — the event-triggered handler raises `ValueError`
instead of accepting it: this variant's allow-list is only `[EN, ES, FR]`
(line 131). -/
theorem c6_supported_set_counterexample :
    (melo_tts_gcs_trigger { baseEnv with defaultLanguageRaw := "ZH" }).1
        = .raised .valueError
    ∧ "ZH" ∈ ["EN", "ES", "FR", "ZH", "JP", "KR"]
    ∧ containsStr "ZH" valid_languages = false := by decide

/-- C6 amended: for a reachable invocation (healthy client and
configuration, well-formed `.txt` event, non-empty source text), the
handler raises `ValueError` precisely when the configured language,
uppercased, lies outside this variant's supported set `{EN, ES, FR}`;
every language in that set passes the gate and no `ValueError` is ever
raised for it. -/
theorem c6_language_gate (env : Env) (t : String)
    (h1 : env.storageClientAvailable = true)
    (h2 : falsyStr env.outputBucket = false)
    (h3 : falsyStr env.eventBucket = false)
    (h4 : falsyStr env.eventName = false)
    (h5 : pyEndsWith (pyLower (env.eventName.getD "")) ".txt" = true)
    (h6 : env.readO = .ok t) (h7 : pyStrip t ≠ "") :
    (melo_tts_gcs_trigger env).1 = .raised .valueError
      ↔ containsStr (pyUpper env.defaultLanguageRaw) valid_languages = false := by
  cases hv : containsStr (pyUpper env.defaultLanguageRaw) valid_languages with
  | false =>
    simp [melo_tts_gcs_trigger, triggerCore, read_text_from_gcs, cleanupTemp,
      h1, h2, h3, h4, h5, h6, h7, hv]
  | true =>
    have hred : (melo_tts_gcs_trigger env).1 =
        (match (runTryRegion env (pyUpper env.defaultLanguageRaw)).result with
          | .ok _ => Outcome.ack .success 200
          | .error e => Outcome.raised e) := by
      cases hres : (runTryRegion env (pyUpper env.defaultLanguageRaw)).result with
      | ok u =>
        simp [melo_tts_gcs_trigger, triggerCore, read_text_from_gcs,
          h1, h2, h3, h4, h5, h6, h7, hv, hres]
      | error e =>
        simp [melo_tts_gcs_trigger, triggerCore, read_text_from_gcs,
          h1, h2, h3, h4, h5, h6, h7, hv, hres]
    rw [hred]
    cases hres : (runTryRegion env (pyUpper env.defaultLanguageRaw)).result with
    | ok u => simp
    | error e =>
      have hne := runTryRegion_no_valueError env (pyUpper env.defaultLanguageRaw) e
        h1 h2 hres
      simp [hne]

/-- Witness for the amended C6: with `DEFAULT_LANGUAGE` set to `"jp"`
(uppercased to `"JP"`, outside `{EN, ES, FR}`) the handler raises
`ValueError`. -/
theorem c6_language_gate_witness :
    (melo_tts_gcs_trigger { baseEnv with defaultLanguageRaw := "jp" }).1
        = .raised .valueError :=
  (c6_language_gate { baseEnv with defaultLanguageRaw := "jp" } "Hello world"
    (by decide) (by decide) (by decide) (by decide) (by decide) rfl
    (by decide)).mpr (by decide)

/-- C2 counterexample: an invocation whose source read fails with a
`RuntimeError`-class storage I/O error is not re-raised: the handler
returns normally — acknowledging the event — with the tuple status 500
(line 118), so the platform's retry mechanism is not triggered for it. -/
theorem c2_runtime_read_error_not_reraised :
    (melo_tts_gcs_trigger { baseEnv with readO := .ioFailure }).1
        = .ack (.readErr .runtimeError) 500
    ∧ (melo_tts_gcs_trigger { baseEnv with readO := .ioFailure }).1
        ≠ .raised .runtimeError := by decide

/-- C2 amended: systemic failures are re-raised — an unavailable storage
client raises `RuntimeError`; an engine initialization or synthesis
failure re-raises the unexpected exception; an upload failure of
`RuntimeError` class is re-raised — but a `RuntimeError`-class failure of
the source read is NOT re-raised: it is logged and acknowledged with a 500
status tuple. -/
theorem c2_systemic_error_policy (env : Env) :
    (env.storageClientAvailable = false →
        (melo_tts_gcs_trigger env).1 = .raised .runtimeError)
    ∧ (reachesRead env = true → env.readO = .ioFailure →
        (melo_tts_gcs_trigger env).1 = .ack (.readErr .runtimeError) 500)
    ∧ (reachesTry env = true → env.ttsInitO = .fail →
        (melo_tts_gcs_trigger env).1 = .raised .unexpected)
    ∧ (reachesTry env = true → selectionOk env = true → env.tmpCreateOk = true →
        env.ttsRunOk = false →
        (melo_tts_gcs_trigger env).1 = .raised .unexpected)
    ∧ (reachesUpload env = true → env.uploadO = .ioFailure →
        (melo_tts_gcs_trigger env).1 = .raised .runtimeError) := by
  refine ⟨fun hc => ?_, fun hR hro => ?_, fun hT hI => ?_, fun hT hS htmp htts => ?_,
    fun hU huo => ?_⟩
  · simp [melo_tts_gcs_trigger, triggerCore, cleanupTemp, hc]
  · obtain ⟨h1, h2, h3, h4, h5⟩ := reachesRead_spec env hR
    simp [melo_tts_gcs_trigger, triggerCore, cleanupTemp, read_text_from_gcs,
      h1, h2, h3, h4, h5, hro]
  · obtain ⟨hR, ⟨raw, hro, hne⟩, hv⟩ := reachesTry_spec env hT
    obtain ⟨h1, h2, h3, h4, h5⟩ := reachesRead_spec env hR
    simp [melo_tts_gcs_trigger, triggerCore, cleanupTemp, read_text_from_gcs,
      runTryRegion, h1, h2, h3, h4, h5, hro, hne, hv, hI]
  · obtain ⟨hR, ⟨raw, hro, hne⟩, hv⟩ := reachesTry_spec env hT
    obtain ⟨h1, h2, h3, h4, h5⟩ := reachesRead_spec env hR
    obtain ⟨catalog, sid, hI, hsel⟩ := selectionOk_spec env hS
    simp [melo_tts_gcs_trigger, triggerCore, cleanupTemp, read_text_from_gcs,
      runTryRegion, h1, h2, h3, h4, h5, hro, hne, hv, hI, hsel, htmp, htts]
  · simp only [reachesUpload, Bool.and_eq_true] at hU
    obtain ⟨⟨⟨hT, hS⟩, htmp⟩, htts⟩ := hU
    obtain ⟨hR, ⟨raw, hro, hne⟩, hv⟩ := reachesTry_spec env hT
    obtain ⟨h1, h2, h3, h4, h5⟩ := reachesRead_spec env hR
    obtain ⟨catalog, sid, hI, hsel⟩ := selectionOk_spec env hS
    simp [melo_tts_gcs_trigger, triggerCore, cleanupTemp, read_text_from_gcs,
      runTryRegion, upload_to_gcs, h1, h2, h3, h4, h5, hro, hne, hv, hI, hsel,
      htmp, htts, huo]

/-- Witness for the amended C2, exercising each arm at a concrete
environment: client unavailable raises; a read I/O failure is acknowledged
with 500; an engine initialization failure raises; a synthesis failure
raises; an upload I/O failure raises. -/
theorem c2_systemic_error_policy_witness :
    (melo_tts_gcs_trigger { baseEnv with storageClientAvailable := false }).1
        = .raised .runtimeError
    ∧ (melo_tts_gcs_trigger { baseEnv with readO := .ioFailure }).1
        = .ack (.readErr .runtimeError) 500
    ∧ (melo_tts_gcs_trigger { baseEnv with ttsInitO := .fail }).1
        = .raised .unexpected
    ∧ (melo_tts_gcs_trigger { baseEnv with ttsRunOk := false }).1
        = .raised .unexpected
    ∧ (melo_tts_gcs_trigger { baseEnv with uploadO := .ioFailure }).1
        = .raised .runtimeError :=
  ⟨(c2_systemic_error_policy { baseEnv with storageClientAvailable := false }).1 rfl,
   (c2_systemic_error_policy { baseEnv with readO := .ioFailure }).2.1 (by decide) rfl,
   (c2_systemic_error_policy { baseEnv with ttsInitO := .fail }).2.2.1 (by decide) rfl,
   (c2_systemic_error_policy { baseEnv with ttsRunOk := false }).2.2.2.1
      (by decide) (by decide) rfl rfl,
   (c2_systemic_error_policy { baseEnv with uploadO := .ioFailure }).2.2.2.2
      (by decide) rfl⟩

/-- Soundness of the split at the first slash: it returns the slash-free
prefix before the first `'/'` and the remainder after it. -/
theorem splitAtFirstSlash_sound (cs : List Char) :
    ∀ pre post, splitAtFirstSlash cs = some (pre, post) →
      cs = pre ++ '/' :: post ∧ containsChar '/' pre = false := by
  induction cs with
  | nil => intro pre post h; simp [splitAtFirstSlash] at h
  | cons c cs ih =>
    intro pre post h
    by_cases hc : c = '/'
    · subst hc
      rw [splitAtFirstSlash, if_pos rfl] at h
      obtain ⟨h1, h2⟩ : ([] : List Char) = pre ∧ cs = post := by
        simpa using h
      subst h1; subst h2
      exact ⟨rfl, rfl⟩
    · rw [splitAtFirstSlash, if_neg hc] at h
      cases hs : splitAtFirstSlash cs with
      | none => rw [hs] at h; exact absurd h (by simp)
      | some pq =>
        rw [hs] at h
        obtain ⟨h1, h2⟩ : c :: pq.1 = pre ∧ pq.2 = post := by simpa using h
        subst h1; subst h2
        obtain ⟨hcs, hpre⟩ := ih pq.1 pq.2 (by rw [hs])
        constructor
        · rw [List.cons_append, ← hcs]
        · rw [containsChar, if_neg hc, hpre]

/-- Completeness of the split at the first slash: a slash-free prefix
followed by `'/'` and a remainder is split exactly there. -/
theorem splitAtFirstSlash_complete (pre post : List Char)
    (h : containsChar '/' pre = false) :
    splitAtFirstSlash (pre ++ '/' :: post) = some (pre, post) := by
  induction pre with
  | nil => simp [splitAtFirstSlash]
  | cons c p ih =>
    have hc : ¬ (c = '/') := by
      intro hcc
      rw [containsChar, if_pos hcc] at h
      exact Bool.noConfusion h
    have hp : containsChar '/' p = false := by
      rwa [containsChar, if_neg hc] at h
    rw [List.cons_append, splitAtFirstSlash, if_neg hc, ih hp]

/-- C9 counterexample: the string `gs:` + two slashes + `b/a`, newline,
`b` has the claimed shape — non-empty slash-free container `b`, non-empty
object path `a`-newline-`b` — yet parsing fails, because the regex `.`
does not match a newline in Python's default mode. -/
theorem c9_newline_counterexample :
    parse_gcs_uri "gs://b/a\nb" = none
    ∧ "gs://b/a\nb" = "gs://" ++ "b" ++ "/" ++ "a\nb"
    ∧ "b" ≠ "" ∧ containsChar '/' "b".data = false
    ∧ "a\nb" ≠ "" := by decide

/-- C9 amended: parsing succeeds exactly on character strings of the form
`gs:` + two slashes + container + `/` + object-path where the container is
one or more non-slash characters and the object-path is one or more
characters that may include slashes but no newline; on success it returns
the (container, object-path) pair, which recomposes to the original
string. -/
theorem c9_parse_characterization (cs : List Char) :
    (∀ container path, parse_gcs_uri_chars cs = some (container, path) →
        cs = 'g' :: 's' :: ':' :: '/' :: '/' :: (container ++ '/' :: path)
        ∧ container ≠ [] ∧ containsChar '/' container = false
        ∧ path ≠ [] ∧ containsChar '\n' path = false)
    ∧ (∀ container path,
        cs = 'g' :: 's' :: ':' :: '/' :: '/' :: (container ++ '/' :: path) →
        container ≠ [] → containsChar '/' container = false →
        path ≠ [] → containsChar '\n' path = false →
        parse_gcs_uri_chars cs = some (container, path)) := by
  constructor
  · intro container path h
    unfold parse_gcs_uri_chars at h
    split at h
    · rename_i rest
      cases hs : splitAtFirstSlash rest with
      | none => rw [hs] at h; exact absurd h (by simp)
      | some pq =>
        obtain ⟨p1, p2⟩ := pq
        rw [hs] at h
        by_cases hc1 : p1 = []
        · simp [hc1] at h
        · by_cases hc2 : p2 = []
          · simp [hc1, hc2] at h
          · by_cases hc3 : containsChar '\n' p2 = true
            · simp [hc1, hc2, hc3] at h
            · obtain ⟨h1, h2⟩ : p1 = container ∧ p2 = path := by
                simpa [hc1, hc2, hc3] using h
              subst h1; subst h2
              obtain ⟨hcs, hpre⟩ := splitAtFirstSlash_sound rest p1 p2 hs
              exact ⟨by rw [hcs], hc1, hpre, hc2,
                Bool.eq_false_iff.mpr hc3⟩
    · exact absurd h (by simp)
  · intro container path hcs hne1 hnsl hne2 hnl
    subst hcs
    simp only [parse_gcs_uri_chars]
    rw [splitAtFirstSlash_complete container path hnsl]
    simp [hne1, hne2, hnl]

/-- Witness for the amended C9: the canonical locator
`gs:` + slashes + `bucket/dir/file.txt` parses to container `bucket` and
object path `dir/file.txt`. -/
theorem c9_parse_characterization_witness :
    parse_gcs_uri_chars "gs://bucket/dir/file.txt".data
      = some ("bucket".data, "dir/file.txt".data) :=
  (c9_parse_characterization "gs://bucket/dir/file.txt".data).2
    "bucket".data "dir/file.txt".data (by decide) (by decide) (by decide)
    (by decide) (by decide)

end MeloTTS
